import Mathlib

/-!
Verification development for the gnatt aggregating gateway
(gateway/gate/agggateway.go).  The dispatcher, its per-type handlers,
`distribute` and `publish` are translated from the source; the supporting
registries (topic registry, subscription tree, client session registry),
the decoded message structures and the client-id validator live in files
of the repository that are not part of the provided sources, so they are
modelled from the design document (sections 3, 4.1, 4.2, 4.3, 6).
-/

namespace GnattAgg

/-- Modelled from the spec: decoded SN-protocol PUBLISH message (the binary
codec of `common/protocol` is not in the provided sources).  Fields follow
the accessors the gateway uses (`DupFlag`, `RetainedFlag`, `QoS`,
`TopicId`, `MsgId`, `Data`) and the constructor
`NewPublishMessage(dup, ret, qos, topicidtype, topicid, msgid, pay)`.
Payload bytes are a `List Nat`. -/
structure PublishMessage where
  dup : Bool
  retain : Bool
  qos : Nat
  topicIdType : Nat
  topicId : Nat
  msgId : Nat
  payload : List Nat
  deriving DecidableEq, Repr

/-- Modelled from the spec: SN-protocol REGISTER message, as built by
`NewRegisterMessage(topicid, msgid, topic)`. -/
structure RegisterMessage where
  topicId : Nat
  msgId : Nat
  topicName : String
  deriving DecidableEq, Repr

/-- Modelled from the spec: SN-protocol REGACK message, as built by
`NewRegackMessage(topicid, msgid, returncode)`. -/
structure RegackMessage where
  topicId : Nat
  msgId : Nat
  returnCode : Nat
  deriving DecidableEq, Repr

/-- Modelled from the spec: SN-protocol CONNACK message, as built by
`NewConnackMessage(returncode)`. -/
structure ConnackMessage where
  returnCode : Nat
  deriving DecidableEq, Repr

/-- Modelled from the spec: SN-protocol SUBACK message, as built by
`NewSubackMessage(returncode, qos, topicid, msgid)`. -/
structure SubackMessage where
  returnCode : Nat
  qos : Nat
  topicId : Nat
  msgId : Nat
  deriving DecidableEq, Repr

/-- Modelled from the spec: a broker-protocol delivery (the MQTT client
library's `Message`), with the accessors used by `distribute`/`publish`:
`DupFlag`, `RetainedFlag`, `QoS`, `Topic`, `Payload`. -/
structure BrokerMessage where
  dup : Bool
  retained : Bool
  qos : Nat
  topic : String
  payload : List Nat
  deriving DecidableEq, Repr

/-- The decoded inbound datagram, tagged by SN-protocol message type,
mirroring the cases of the `switch` in `OnPacket`. -/
inductive SNMessage where
  | advertise
  | searchgw
  | gwinfo
  | connect (clientId : String) (will : Bool)
  | connack
  | willtopicreq
  | willtopic
  | willmsgreq
  | willmsg
  | register (topicName : String) (msgId : Nat)
  | regack (topicId : Nat) (msgId : Nat) (returnCode : Nat)
  | publish (m : PublishMessage)
  | puback
  | pubcomp
  | pubrec
  | pubrel
  | subscribe (topicIdType : Nat) (topicName : String) (qos : Nat) (msgId : Nat)
  | suback
  | unsubscribe
  | unsuback
  | pingreq
  | pingresp
  | disconnect (duration : Nat)
  | willtopicupd
  | willtopicresp
  | willmsgupd
  | willmsgresp
  | unknown
  deriving DecidableEq, Repr

/-- Observable effects of one handler run: log records to the
observability sink (`INFO`/`ERROR`), outbound SN datagrams to a client
endpoint, and calls on the broker-protocol connection.  `awaitReceipt`
records a blocking wait on a broker delivery receipt. -/
inductive Out where
  | log (tag : String)
  | connackOut (m : ConnackMessage) (dst : String)
  | regackOut (m : RegackMessage) (dst : String)
  | subackOut (m : SubackMessage) (dst : String)
  | publishOut (m : PublishMessage) (dst : String)
  | registerOut (m : RegisterMessage) (dst : String)
  | pingrespOut (dst : String)
  | brokerPublish (qos : Nat) (topic : String) (payload : List Nat)
  | brokerSubscribe (filter : String) (qos : Nat)
  | awaitReceipt
  deriving DecidableEq, Repr

/-- `true` exactly on observability records (no datagram, no broker call). -/
def Out.isLog : Out → Bool
  | .log _ => true
  | _ => false

/-- `true` exactly on forwards of a payload to the broker. -/
def Out.isBrokerPublish : Out → Bool
  | .brokerPublish _ _ _ => true
  | _ => false

/-- `true` exactly on upstream broker-protocol subscribe calls. -/
def Out.isBrokerSubscribe : Out → Bool
  | .brokerSubscribe _ _ => true
  | _ => false

/-- `true` exactly on SN PUBLISH datagrams sent to a client. -/
def Out.isPublishOut : Out → Bool
  | .publishOut _ _ => true
  | _ => false

/-- `true` exactly on SN REGISTER datagrams sent to a client. -/
def Out.isRegisterOut : Out → Bool
  | .registerOut _ _ => true
  | _ => false

/-- `true` exactly on SN SUBACK datagrams sent to a client. -/
def Out.isSubackOut : Out → Bool
  | .subackOut _ _ => true
  | _ => false

/-- Modelled from the spec: the Topic Registry (`topicNames`, whose file is
not in the provided sources).  A bidirectional id/name mapping as an
association list plus the monotonically increasing next-id counter; id 0 is
reserved/unassigned and allocation skips it by handing out `next + 1`. -/
structure topicNames where
  contents : List (Nat × String)
  next : Nat
  deriving DecidableEq, Repr

/-- Modelled from the spec: whether a topic name already has an id. -/
def topicNames.containsTopic (tn : topicNames) (topic : String) : Bool :=
  tn.contents.any (fun p => p.2 == topic)

/-- Modelled from the spec: `idOf(name)`, the sentinel 0 when absent. -/
def topicNames.getId (tn : topicNames) (topic : String) : Nat :=
  match tn.contents.find? (fun p => p.2 == topic) with
  | some p => p.1
  | none => 0

/-- Modelled from the spec: `nameOf(id)`, the empty string when absent. -/
def topicNames.getTopic (tn : topicNames) (id : Nat) : String :=
  match tn.contents.find? (fun p => p.1 == id) with
  | some p => p.2
  | none => ""

/-- Modelled from the spec: allocate the next unused id (skipping 0) for a
new topic name and record the pair; returns the id and updated registry. -/
def topicNames.putTopic (tn : topicNames) (topic : String) : Nat × topicNames :=
  let id := tn.next + 1
  (id, { contents := (id, topic) :: tn.contents, next := id })

/-- Registry well-formedness: every allocated id is nonzero (spec: id 0 is
reserved/unassigned and never allocated to a real topic). -/
def topicNames.WF (tn : topicNames) : Prop :=
  ∀ p ∈ tn.contents, 1 ≤ p.1

instance (tn : topicNames) : Decidable tn.WF := by
  unfold topicNames.WF; infer_instance

/-- Modelled from the spec: a client session — stable client identifier,
owning network endpoint, the set of registered topic ids, and the
pending-message slot keyed by topic id (at most one message per id). -/
structure Client where
  ClientId : String
  addr : String
  registered : List Nat
  pending : List (Nat × PublishMessage)
  deriving DecidableEq, Repr

/-- Modelled from the spec: `isRegistered(topicId)`. -/
def Client.Registered (c : Client) (topicid : Nat) : Bool :=
  c.registered.contains topicid

/-- Modelled from the spec: `register(topicId)`, idempotent set insert. -/
def Client.Register (c : Client) (topicid : Nat) : Client :=
  if c.registered.contains topicid then c
  else { c with registered := topicid :: c.registered }

/-- Modelled from the spec: `addPendingMessage(topicId, message)` keyed by
the message's topic id, overwriting any prior pending message for it. -/
def Client.AddPendingMessage (c : Client) (pm : PublishMessage) : Client :=
  { c with pending := (pm.topicId, pm) :: c.pending.filter (fun p => p.1 != pm.topicId) }

/-- Modelled from the spec: `fetchPendingMessage(topicId)` — removes and
returns the pending message for the id, absence as `none`. -/
def Client.FetchPendingMessage (c : Client) (topicid : Nat) :
    Option PublishMessage × Client :=
  ((c.pending.find? (fun p => p.1 == topicid)).map (fun p => p.2),
   { c with pending := c.pending.filter (fun p => p.1 != topicid) })

/-- Modelled from the spec: the Client Session Registry, mapping a network
endpoint (rendered as a string) to its session. -/
structure Clients where
  clients : List (String × Client)
  deriving DecidableEq, Repr

/-- Modelled from the spec: `getClient(endpoint)`, absence (`UnknownClient`)
as `none`. -/
def Clients.GetClient (cs : Clients) (addr : String) : Option Client :=
  (cs.clients.find? (fun p => p.1 == addr)).map (fun p => p.2)

/-- Modelled from the spec: `addClient(session)`, keyed by the session's
network endpoint, replacing any previous session for that endpoint. -/
def Clients.AddClient (cs : Clients) (c : Client) : Clients :=
  { clients := (c.addr, c) :: cs.clients.filter (fun p => p.1 != c.addr) }

/-- In-place update of the session stored for an endpoint, the pure image
of mutating through the `*Client` pointer held in the Go map. -/
def Clients.SetClient (cs : Clients) (addr : String) (c : Client) : Clients :=
  { clients := cs.clients.map (fun p => if p.1 == addr then (p.1, c) else p) }

/-- Registry well-formedness: endpoint keys are pairwise distinct, as in
the Go map the registry wraps. -/
def Clients.WF (cs : Clients) : Prop :=
  (cs.clients.map Prod.fst).Nodup

instance (cs : Clients) : Decidable cs.WF := by
  unfold Clients.WF; infer_instance

/-- Split a character stream on the path separator, accumulating the
current segment in reverse. -/
def segmentsAux : List Char → List Char → List String
  | [], acc => [String.mk acc.reverse]
  | c :: rest, acc =>
    if c = '/' then String.mk acc.reverse :: segmentsAux rest []
    else segmentsAux rest (c :: acc)

/-- Modelled from the spec: topic names and filters are split on the fixed
path separator `/` into segments. -/
def segments (s : String) : List String :=
  segmentsAux s.data []

/-- Modelled from the spec: whether a topic string contains a wildcard
segment — a single-level wildcard `+` or a multi-level wildcard `#`
(`ContainsWildcard` of the protocol package is not in the provided
sources). -/
def ContainsWildcard (topic : String) : Bool :=
  (segments topic).any (fun s => s == "+" || s == "#")

/-- Modelled from the spec: segment-wise filter matching — exact segment
equality, `+` matches exactly one segment, a final `#` matches any number
of trailing segments including zero.  A non-final `#` (structurally
invalid filter) never arises from validated input and simply fails to
match here. -/
def filterMatch : List String → List String → Bool
  | [], [] => true
  | ["#"], _ => true
  | f :: fs, t :: ts => (f == "+" || f == t) && filterMatch fs ts
  | _, _ => false

/-- Modelled from the spec: the Subscription Tree — each filter string is
associated with the set of subscribed sessions, recorded here by their
endpoint keys into the Client Session Registry (the Go code stores
`*Client` pointers into the same sessions). -/
structure TopicTree where
  subs : List (String × List String)
  deriving DecidableEq, Repr

/-- Modelled from the spec: `addSubscription(session, filter)` — creates
the filter entry on first subscription (returning `true`), otherwise adds
the session idempotently and returns `false`.  The spec defines no failure
for this operation, so the error branch of the caller is unreachable. -/
def TopicTree.AddSubscription (tt : TopicTree) (ep : String) (filter : String) :
    Bool × TopicTree :=
  match tt.subs.find? (fun p => p.1 == filter) with
  | none => (true, { subs := (filter, [ep]) :: tt.subs })
  | some p =>
    if p.2.contains ep then (false, tt)
    else (false, { subs := tt.subs.map (fun q => if q.1 == filter then (q.1, ep :: q.2) else q) })

/-- Modelled from the spec: `subscribersOf(topicName)` — the union of the
sessions of every stored filter matching the concrete name. -/
def TopicTree.SubscribersOf (tt : TopicTree) (topic : String) : List String :=
  ((tt.subs.filter (fun p => filterMatch (segments p.1) (segments topic))).flatMap
    (fun p => p.2)).dedup

/-- Outcomes of the external collaborators consulted by the handlers:
the client-id format validator (`validateClientId`, not in the provided
sources — the spec gives only "format constraints", so the predicate is a
parameter), and the broker library's `NewTopicFilter` and
`StartSubscription` success/failure. -/
structure Env where
  validateClientId : String → Bool
  topicFilterOk : String → Bool
  startSubscriptionOk : String → Bool

/-- The gateway state the dispatcher mutates: Topic Registry, Subscription
Tree and Client Session Registry (the broker handle, port and stop channel
of `AggGate` are external collaborators and carry no dispatch state). -/
structure AggGate where
  tIndex : topicNames
  tTree : TopicTree
  clients : Clients
  deriving DecidableEq, Repr

/-- Result of one handler run: the updated gateway state and its effects,
or a Go runtime panic (an unchecked `.(*Client)` type assertion on a
missing session), which kills the process. -/
inductive HResult where
  | ok (ag : AggGate) (outs : List Out)
  | crash (reason : String)
  deriving DecidableEq, Repr

/-- The effect list of a result (empty for a crash). -/
def HResult.outs : HResult → List Out
  | .ok _ outs => outs
  | .crash _ => []

/-- `handle_CONNECT`: validate the embedded client id; on failure only log
(no session, no reply); on success create the session keyed by the sender
endpoint, add it to the registry and send `CONNACK(0)`. -/
def handle_CONNECT (env : Env) (ag : AggGate) (clientId : String) (_will : Bool)
    (r : String) : AggGate × List Out :=
  if env.validateClientId clientId then
    let client : Client := ⟨clientId, r, [], []⟩
    ({ ag with clients := ag.clients.AddClient client },
     [Out.log "handle_CONNECT", Out.connackOut ⟨0⟩ r])
  else
    (ag, [Out.log "handle_CONNECT", Out.log "ERROR InvalidClientId"])

/-- `handle_REGISTER`: resolve or allocate the id for the topic name, then
fetch the sender's session with an unchecked type assertion (crash when
absent), mark the id registered and reply `REGACK(id, msgId, 0)`. -/
def handle_REGISTER (ag : AggGate) (topicName : String) (msgId : Nat)
    (r : String) : HResult :=
  let tp :=
    if !ag.tIndex.containsTopic topicName then ag.tIndex.putTopic topicName
    else (ag.tIndex.getId topicName, ag.tIndex)
  match ag.clients.GetClient r with
  | none => .crash "interface conversion on nil GetClient result"
  | some client =>
    let client := client.Register tp.1
    .ok { ag with tIndex := tp.2, clients := ag.clients.SetClient r client }
       [Out.log "handle_REGISTER", Out.regackOut ⟨tp.1, msgId, 0⟩ r]

/-- `handle_REGACK`: fetch the sender's session with an unchecked type
assertion (crash when absent), remove and take the pending message for the
acknowledged topic id; send it as the deferred PUBLISH when present,
otherwise only log. -/
def handle_REGACK (ag : AggGate) (topicId : Nat) (_msgId : Nat)
    (r : String) : HResult :=
  match ag.clients.GetClient r with
  | none => .crash "interface conversion on nil GetClient result"
  | some client =>
    let fetched := client.FetchPendingMessage topicId
    let ag := { ag with clients := ag.clients.SetClient r fetched.2 }
    match fetched.1 with
    | none => .ok ag [Out.log "handle_REGACK", Out.log "ERROR no pending message"]
    | some pm => .ok ag [Out.log "handle_REGACK", Out.publishOut pm r]

/-- `handle_PUBLISH`: resolve the topic name from the id (empty string when
the id has no registry entry — no check is made) and unconditionally
forward the payload to the broker at QoS 2, blocking on the receipt. -/
def handle_PUBLISH (ag : AggGate) (m : PublishMessage) (_r : String) :
    AggGate × List Out :=
  let topic := ag.tIndex.getTopic m.topicId
  (ag, [Out.log "handle_PUBLISH", Out.brokerPublish 2 topic m.payload, Out.awaitReceipt])

/-- The topic-id resolution at the head of `handle_SUBSCRIBE`: for a plain
name with topic-id type 0, resolve or allocate an id; wildcard filters and
other id types leave the id at its zero value and the registry
untouched. -/
def subscribeTopicId (ag : AggGate) (topicIdType : Nat) (topicName : String) :
    Nat × topicNames :=
  if topicIdType == 0 then
    if !ContainsWildcard topicName then
      let tid := ag.tIndex.getId topicName
      if tid == 0 then ag.tIndex.putTopic topicName else (tid, ag.tIndex)
    else (0, ag.tIndex)
  else (0, ag.tIndex)

/-- `handle_SUBSCRIBE`: resolve the topic id via `subscribeTopicId`; fetch
the sender's session with an unchecked type assertion (crash when absent);
add the subscription, and when it is the filter's first subscriber attempt
the upstream broker subscription, logging any
`NewTopicFilter`/`StartSubscription` failure; in every non-crash case fall
through to mark the id registered and send `SUBACK(0, qos, id, msgId)`. -/
def handle_SUBSCRIBE (env : Env) (ag : AggGate) (topicIdType : Nat)
    (topicName : String) (qos : Nat) (msgId : Nat) (r : String) : HResult :=
  let tp := subscribeTopicId ag topicIdType topicName
  match ag.clients.GetClient r with
  | none => .crash "interface conversion on nil GetClient result"
  | some client =>
    let fr := ag.tTree.AddSubscription r topicName
    let subOuts : List Out :=
      if fr.1 then
        if env.topicFilterOk topicName then
          if env.startSubscriptionOk topicName then
            [Out.brokerSubscribe topicName 2, Out.awaitReceipt]
          else [Out.log "ERROR StartSubscription"]
        else [Out.log "ERROR NewTopicFilter"]
      else []
    let client := client.Register tp.1
    .ok { ag with tIndex := tp.2, tTree := fr.2,
                  clients := ag.clients.SetClient r client }
       ([Out.log "handle_SUBSCRIBE"] ++ subOuts ++ [Out.subackOut ⟨0, qos, tp.1, msgId⟩ r])

/-- `publish`: deliver one broker message to one session — the id for the
broker topic is looked up (sentinel 0 when absent); a session with the id
registered gets the PUBLISH directly, otherwise the PUBLISH is parked in
the pending slot and a REGISTER with the topic name and id is sent. -/
def publish (ag : AggGate) (msg : BrokerMessage) (client : Client) :
    Client × List Out :=
  let topicid := ag.tIndex.getId msg.topic
  let pm : PublishMessage :=
    ⟨msg.dup, msg.retained, msg.qos, 0, topicid, 0, msg.payload⟩
  if client.Registered topicid then
    (client, [Out.log "publish direct", Out.publishOut pm client.addr])
  else
    (client.AddPendingMessage pm,
     [Out.log "publish must REGISTER first", Out.registerOut ⟨topicid, 0, msg.topic⟩ client.addr])

/-- `distribute`: fan a broker delivery out to every matching subscriber,
one independent `publish` per session, each against the state at delivery
time (the Go code spawns one goroutine per subscriber). -/
def distribute (ag : AggGate) (msg : BrokerMessage) :
    List (String × (Client × List Out)) :=
  (ag.tTree.SubscribersOf msg.topic).filterMap (fun ep =>
    (ag.clients.GetClient ep).map (fun c => (ep, publish ag msg c)))

/-- `handle_ADVERTISE`: observability record only. -/
def handle_ADVERTISE (ag : AggGate) (_r : String) : AggGate × List Out :=
  (ag, [Out.log "handle_ADVERTISE"])

/-- `handle_SEARCHGW`: observability record only. -/
def handle_SEARCHGW (ag : AggGate) (_r : String) : AggGate × List Out :=
  (ag, [Out.log "handle_SEARCHGW"])

/-- `handle_GWINFO`: observability record only. -/
def handle_GWINFO (ag : AggGate) (_r : String) : AggGate × List Out :=
  (ag, [Out.log "handle_GWINFO"])

/-- `handle_CONNACK`: observability record only. -/
def handle_CONNACK (ag : AggGate) (_r : String) : AggGate × List Out :=
  (ag, [Out.log "handle_CONNACK"])

/-- `handle_WILLTOPICREQ`: observability record only. -/
def handle_WILLTOPICREQ (ag : AggGate) (_r : String) : AggGate × List Out :=
  (ag, [Out.log "handle_WILLTOPICREQ"])

/-- `handle_WILLTOPIC`: observability record only. -/
def handle_WILLTOPIC (ag : AggGate) (_r : String) : AggGate × List Out :=
  (ag, [Out.log "handle_WILLTOPIC"])

/-- `handle_WILLMSGREQ`: observability record only. -/
def handle_WILLMSGREQ (ag : AggGate) (_r : String) : AggGate × List Out :=
  (ag, [Out.log "handle_WILLMSGREQ"])

/-- `handle_WILLMSG`: observability record only. -/
def handle_WILLMSG (ag : AggGate) (_r : String) : AggGate × List Out :=
  (ag, [Out.log "handle_WILLMSG"])

/-- `handle_PUBACK`: observability record only. -/
def handle_PUBACK (ag : AggGate) (_r : String) : AggGate × List Out :=
  (ag, [Out.log "handle_PUBACK"])

/-- `handle_PUBCOMP`: observability record only. -/
def handle_PUBCOMP (ag : AggGate) (_r : String) : AggGate × List Out :=
  (ag, [Out.log "handle_PUBCOMP"])

/-- `handle_PUBREC`: observability record only. -/
def handle_PUBREC (ag : AggGate) (_r : String) : AggGate × List Out :=
  (ag, [Out.log "handle_PUBREC"])

/-- `handle_PUBREL`: observability record only. -/
def handle_PUBREL (ag : AggGate) (_r : String) : AggGate × List Out :=
  (ag, [Out.log "handle_PUBREL"])

/-- `handle_SUBACK`: observability record only. -/
def handle_SUBACK (ag : AggGate) (_r : String) : AggGate × List Out :=
  (ag, [Out.log "handle_SUBACK"])

/-- `handle_UNSUBSCRIBE`: observability record only. -/
def handle_UNSUBSCRIBE (ag : AggGate) (_r : String) : AggGate × List Out :=
  (ag, [Out.log "handle_UNSUBSCRIBE"])

/-- `handle_UNSUBACK`: observability record only. -/
def handle_UNSUBACK (ag : AggGate) (_r : String) : AggGate × List Out :=
  (ag, [Out.log "handle_UNSUBACK"])

/-- `handle_PINGREQ`: reply immediately with PINGRESP, no state change. -/
def handle_PINGREQ (ag : AggGate) (r : String) : AggGate × List Out :=
  (ag, [Out.log "handle_PINGREQ", Out.pingrespOut r])

/-- `handle_PINGRESP`: observability record only. -/
def handle_PINGRESP (ag : AggGate) (_r : String) : AggGate × List Out :=
  (ag, [Out.log "handle_PINGRESP"])

/-- `handle_DISCONNECT`: logs the type and the duration; session cleanup is
an acknowledged gap (`todo` in the source), so no state change. -/
def handle_DISCONNECT (ag : AggGate) (_duration : Nat) (_r : String) :
    AggGate × List Out :=
  (ag, [Out.log "handle_DISCONNECT", Out.log "duration"])

/-- `handle_WILLTOPICUPD`: observability record only. -/
def handle_WILLTOPICUPD (ag : AggGate) (_r : String) : AggGate × List Out :=
  (ag, [Out.log "handle_WILLTOPICUPD"])

/-- `handle_WILLTOPICRESP`: observability record only. -/
def handle_WILLTOPICRESP (ag : AggGate) (_r : String) : AggGate × List Out :=
  (ag, [Out.log "handle_WILLTOPICRESP"])

/-- `handle_WILLMSGUPD`: observability record only. -/
def handle_WILLMSGUPD (ag : AggGate) (_r : String) : AggGate × List Out :=
  (ag, [Out.log "handle_WILLMSGUPD"])

/-- `handle_WILLMSGRESP`: observability record only. -/
def handle_WILLMSGRESP (ag : AggGate) (_r : String) : AggGate × List Out :=
  (ag, [Out.log "handle_WILLMSGRESP"])

/-- `OnPacket`: the dispatch switch — route the decoded message to its
per-type handler; an unrecognized type is reported and discarded. -/
def OnPacket (env : Env) (ag : AggGate) (msg : SNMessage) (r : String) : HResult :=
  match msg with
  | .advertise => let (ag, outs) := handle_ADVERTISE ag r; .ok ag outs
  | .searchgw => let (ag, outs) := handle_SEARCHGW ag r; .ok ag outs
  | .gwinfo => let (ag, outs) := handle_GWINFO ag r; .ok ag outs
  | .connect cid will => let (ag, outs) := handle_CONNECT env ag cid will r; .ok ag outs
  | .connack => let (ag, outs) := handle_CONNACK ag r; .ok ag outs
  | .willtopicreq => let (ag, outs) := handle_WILLTOPICREQ ag r; .ok ag outs
  | .willtopic => let (ag, outs) := handle_WILLTOPIC ag r; .ok ag outs
  | .willmsgreq => let (ag, outs) := handle_WILLMSGREQ ag r; .ok ag outs
  | .willmsg => let (ag, outs) := handle_WILLMSG ag r; .ok ag outs
  | .register tn mid => handle_REGISTER ag tn mid r
  | .regack tid mid _rc => handle_REGACK ag tid mid r
  | .publish m => let (ag, outs) := handle_PUBLISH ag m r; .ok ag outs
  | .puback => let (ag, outs) := handle_PUBACK ag r; .ok ag outs
  | .pubcomp => let (ag, outs) := handle_PUBCOMP ag r; .ok ag outs
  | .pubrec => let (ag, outs) := handle_PUBREC ag r; .ok ag outs
  | .pubrel => let (ag, outs) := handle_PUBREL ag r; .ok ag outs
  | .subscribe tit tn q mid => handle_SUBSCRIBE env ag tit tn q mid r
  | .suback => let (ag, outs) := handle_SUBACK ag r; .ok ag outs
  | .unsubscribe => let (ag, outs) := handle_UNSUBSCRIBE ag r; .ok ag outs
  | .unsuback => let (ag, outs) := handle_UNSUBACK ag r; .ok ag outs
  | .pingreq => let (ag, outs) := handle_PINGREQ ag r; .ok ag outs
  | .pingresp => let (ag, outs) := handle_PINGRESP ag r; .ok ag outs
  | .disconnect d => let (ag, outs) := handle_DISCONNECT ag d r; .ok ag outs
  | .willtopicupd => let (ag, outs) := handle_WILLTOPICUPD ag r; .ok ag outs
  | .willtopicresp => let (ag, outs) := handle_WILLTOPICRESP ag r; .ok ag outs
  | .willmsgupd => let (ag, outs) := handle_WILLMSGUPD ag r; .ok ag outs
  | .willmsgresp => let (ag, outs) := handle_WILLMSGRESP ag r; .ok ag outs
  | .unknown => .ok ag [Out.log "ERROR Unknown Message Type"]

/-- The reserved message types of the dispatch switch whose handlers only
record an observability event (the extension points of the protocol). -/
def SNMessage.reserved : SNMessage → Bool
  | .advertise | .searchgw | .gwinfo | .connack
  | .willtopicreq | .willtopic | .willmsgreq | .willmsg
  | .puback | .pubcomp | .pubrec | .pubrel
  | .suback | .unsubscribe | .unsuback | .pingresp
  | .disconnect _
  | .willtopicupd | .willtopicresp | .willmsgupd | .willmsgresp => true
  | _ => false

/-- The first association found for a key, under distinct keys, is the only
one: every entry carrying the key holds the found value. -/
theorem find_assoc_unique {l : List (String × Client)} {r : String} {cl : Client}
    (hwf : (l.map Prod.fst).Nodup)
    (h : (l.find? (fun p => p.1 == r)).map (fun p => p.2) = some cl) :
    ∀ p ∈ l, p.1 = r → p.2 = cl := by
  induction l with
  | nil => intro p hp; simp at hp
  | cons a t ih =>
    intro p hp hpr
    simp only [List.map_cons, List.nodup_cons] at hwf
    by_cases ha : ((a.1 == r) = true)
    · simp only [List.find?_cons] at h
      rw [ha] at h
      have hacl : a.2 = cl := by simpa using h
      rcases List.mem_cons.mp hp with hpa | hpt
      · rw [hpa]; exact hacl
      · exfalso
        have har : a.1 = r := by simpa using ha
        exact hwf.1 (by rw [har, ← hpr]; exact List.mem_map_of_mem Prod.fst hpt)
    · have ha' : (a.1 == r) = false := by simpa using ha
      simp only [List.find?_cons, ha'] at h
      rcases List.mem_cons.mp hp with hpa | hpt
      · exact absurd (by simpa [hpa] using hpr) ha
      · exact ih hwf.2 h p hpt hpr

/-- Looking an endpoint up after updating its session in place yields the
updated session. -/
theorem Clients.GetClient_SetClient_self (cs : Clients) (r : String) (cl c : Client)
    (h : cs.GetClient r = some cl) :
    (cs.SetClient r c).GetClient r = some c := by
  obtain ⟨l⟩ := cs
  simp only [Clients.GetClient, Clients.SetClient] at h ⊢
  induction l with
  | nil => simp at h
  | cons a t ih =>
    by_cases ha : ((a.1 == r) = true)
    · simp only [List.map_cons, List.find?_cons, ha, if_true]
      simp
    · have ha' : (a.1 == r) = false := by simpa using ha
      simp only [List.find?_cons, ha'] at h
      simp only [List.map_cons, List.find?_cons, ha', Bool.false_eq_true, if_false]
      exact ih h

/-- Under distinct endpoint keys, writing back the very session an endpoint
already stores leaves the registry unchanged. -/
theorem Clients.SetClient_eq_self {cs : Clients} {r : String} {cl : Client}
    (hwf : cs.WF) (h : cs.GetClient r = some cl) :
    cs.SetClient r cl = cs := by
  obtain ⟨l⟩ := cs
  simp only [Clients.GetClient] at h
  simp only [Clients.WF] at hwf
  simp only [Clients.SetClient, Clients.mk.injEq]
  have huniq := find_assoc_unique hwf h
  have h2 : l.map (fun p => if p.1 == r then (p.1, cl) else p) = l.map (fun a => a) := by
    refine List.map_congr_left ?_
    intro p hp
    by_cases hpr : ((p.1 == r) = true)
    · have h3 := huniq p hp (by simpa using hpr)
      simp only [hpr, if_true]
      rw [← h3]
    · have hpr' : (p.1 == r) = false := by simpa using hpr
      simp [hpr']
  rw [h2, List.map_id']

/-- A filter that drops nothing (no element satisfies the removal key). -/
theorem filter_bne_eq_self {α : Type} {l : List (Nat × α)} {tid : Nat}
    (h : l.find? (fun p => p.1 == tid) = none) :
    l.filter (fun p => p.1 != tid) = l := by
  rw [List.find?_eq_none] at h
  refine List.filter_eq_self.mpr ?_
  intro p hp
  simpa using h p hp

/-- A registry obeying the id-0-reservation invariant hands back a nonzero
id for every contained topic. -/
theorem topicNames.getId_ne_zero {tn : topicNames} {topic : String}
    (hwf : tn.WF) (h : tn.containsTopic topic = true) :
    tn.getId topic ≠ 0 := by
  unfold topicNames.containsTopic at h
  unfold topicNames.getId
  rw [List.any_eq_true] at h
  obtain ⟨p, hp, hpt⟩ := h
  cases hq : tn.contents.find? (fun p => p.2 == topic) with
  | none =>
    rw [List.find?_eq_none] at hq
    exact absurd hpt (by simpa using hq p hp)
  | some q =>
    have hmem := List.mem_of_find?_eq_some hq
    have h1 := hwf q hmem
    show q.1 ≠ 0
    omega

/-- Registering an id makes `Registered` true for it. -/
theorem Client.Registered_Register_self (c : Client) (tid : Nat) :
    (c.Register tid).Registered tid = true := by
  unfold Client.Register Client.Registered
  by_cases h : (c.registered.contains tid = true)
  · rw [if_pos h]; exact h
  · rw [if_neg h]
    simp [List.contains_cons]

/-- A freshly added session is found under its own endpoint. -/
theorem Clients.GetClient_AddClient_self (cs : Clients) (c : Client) :
    (cs.AddClient c).GetClient c.addr = some c := by
  simp only [Clients.AddClient, Clients.GetClient]
  rw [List.find?_cons_of_pos]
  · simp
  · simp

/-- A gateway with empty Topic Registry, Subscription Tree and Client
Session Registry (the state right after `NewAggGate`). -/
def agE : AggGate := ⟨⟨[], 0⟩, ⟨[]⟩, ⟨[]⟩⟩

/-- An environment whose external collaborators all succeed. -/
def envT : Env := ⟨fun _ => true, fun _ => true, fun _ => true⟩

/-- An environment whose client-id validation always fails. -/
def envF : Env := ⟨fun _ => false, fun _ => true, fun _ => true⟩

/-- A client PUBLISH carrying topic id 7, which the empty registry has
never allocated. -/
def mC1 : PublishMessage := ⟨false, false, 0, 0, 7, 1, [42]⟩

/-- C1 counterexample: a PUBLISH whose topic id (7) has no Topic Registry
entry is nevertheless forwarded to the broker (with the empty-string topic
name), refuting the claim that such a message is dropped and not
forwarded. -/
theorem C1_counterexample :
    agE.tIndex.contents = [] ∧
    handle_PUBLISH agE mC1 "a" =
      (agE, [Out.log "handle_PUBLISH", Out.brokerPublish 2 "" [42], Out.awaitReceipt]) ∧
    ((handle_PUBLISH agE mC1 "a").2.any Out.isBrokerPublish) = true :=
  ⟨rfl, rfl, rfl⟩

/-- C1 (amended): on every client-originated PUBLISH the handler resolves
the topic name from the id (the empty string when the id has no registry
entry), unconditionally forwards the payload to the broker at the fixed
outbound QoS 2, and waits for the broker's delivery receipt; gateway state
is unchanged and no unknown-id check or drop occurs. -/
theorem C1_publish_always_forwards (ag : AggGate) (m : PublishMessage) (r : String) :
    handle_PUBLISH ag m r =
      (ag, [Out.log "handle_PUBLISH",
            Out.brokerPublish 2 (ag.tIndex.getTopic m.topicId) m.payload,
            Out.awaitReceipt]) := rfl

/-- C3: a REGISTER, REGACK or SUBSCRIBE from an endpoint with no session
in the Client Session Registry is not dropped-and-logged — each handler
performs the unchecked `.(*Client)` type assertion on the nil lookup
result and panics, contradicting the claim that handling never panics or
terminates the dispatcher. -/
theorem C3_unknown_client_crash :
    agE.clients.GetClient "a" = none ∧
    handle_REGISTER agE "t" 1 "a" =
      .crash "interface conversion on nil GetClient result" ∧
    handle_REGACK agE 3 1 "a" =
      .crash "interface conversion on nil GetClient result" ∧
    handle_SUBSCRIBE envT agE 0 "t" 0 1 "a" =
      .crash "interface conversion on nil GetClient result" :=
  ⟨rfl, rfl, rfl, rfl⟩

/-- C7: a CONNECT whose client identifier fails validation creates no
session and sends no reply; a CONNECT with a valid identifier creates a
session keyed by the sender's endpoint, adds it to the registry, and sends
a CONNACK with the success code 0 to the sender. -/
theorem C7_connect_validation (env : Env) (ag : AggGate) (cid : String)
    (will : Bool) (r : String) :
    (env.validateClientId cid = false →
       handle_CONNECT env ag cid will r =
         (ag, [Out.log "handle_CONNECT", Out.log "ERROR InvalidClientId"])) ∧
    (env.validateClientId cid = true →
       handle_CONNECT env ag cid will r =
         ({ ag with clients := ag.clients.AddClient ⟨cid, r, [], []⟩ },
          [Out.log "handle_CONNECT", Out.connackOut ⟨0⟩ r]) ∧
       (ag.clients.AddClient ⟨cid, r, [], []⟩).GetClient r = some ⟨cid, r, [], []⟩) := by
  constructor
  · intro h
    simp [handle_CONNECT, h]
  · intro h
    refine ⟨by simp [handle_CONNECT, h], ?_⟩
    exact Clients.GetClient_AddClient_self ag.clients ⟨cid, r, [], []⟩

/-- C7 witness: both validation outcomes at concrete inputs. -/
theorem C7_connect_validation_witness :
    (handle_CONNECT envT agE "dev1" false "a" =
       ({ agE with clients := agE.clients.AddClient ⟨"dev1", "a", [], []⟩ },
        [Out.log "handle_CONNECT", Out.connackOut ⟨0⟩ "a"]) ∧
     (agE.clients.AddClient ⟨"dev1", "a", [], []⟩).GetClient "a" =
       some ⟨"dev1", "a", [], []⟩) ∧
    handle_CONNECT envF agE "dev1" false "a" =
      (agE, [Out.log "handle_CONNECT", Out.log "ERROR InvalidClientId"]) :=
  ⟨(C7_connect_validation envT agE "dev1" false "a").2 rfl,
   (C7_connect_validation envF agE "dev1" false "a").1 rfl⟩

/-- C8: every reserved-type inbound message dispatches to its per-type
handler, which produces at least one observability record, changes no
gateway state (Topic Registry, Subscription Tree, Client Session Registry
all unchanged) and emits no outbound datagram or broker call; an
unrecognized message type is reported and discarded without terminating
the dispatcher. -/
theorem C8_reserved_no_state_change (env : Env) (ag : AggGate)
    (msg : SNMessage) (r : String) :
    (msg.reserved = true →
       ∃ outs, OnPacket env ag msg r = .ok ag outs ∧ outs ≠ [] ∧
         outs.all Out.isLog = true) ∧
    OnPacket env ag .unknown r = .ok ag [Out.log "ERROR Unknown Message Type"] := by
  refine ⟨?_, rfl⟩
  intro h
  cases msg <;> simp only [SNMessage.reserved] at h <;>
    first
      | exact ⟨_, rfl, by simp, by decide⟩
      | simp at h

/-- C8 witness: a concrete reserved message (ADVERTISE) on the empty
gateway state. -/
theorem C8_reserved_no_state_change_witness :
    ∃ outs, OnPacket envT agE .advertise "a" = .ok agE outs ∧ outs ≠ [] ∧
      outs.all Out.isLog = true :=
  (C8_reserved_no_state_change envT agE .advertise "a").1 rfl

/-- An environment whose upstream `StartSubscription` call always fails. -/
def envC2 : Env := ⟨fun _ => true, fun _ => true, fun _ => false⟩

/-- A connected session at endpoint `a` with nothing registered. -/
def clC2 : Client := ⟨"dev", "a", [], []⟩

/-- A gateway with exactly the one session `clC2` and empty registries. -/
def agC2 : AggGate := ⟨⟨[], 0⟩, ⟨[]⟩, ⟨[("a", clC2)]⟩⟩

/-- C2 counterexample: on a first-subscriber SUBSCRIBE whose upstream
broker subscribe call fails, the SUBACK is not withheld — the handler
logs the error and sends the SUBACK anyway (and makes no broker
subscribe call), refuting the claim that the reply is withheld on
`UpstreamCallError`. -/
theorem C2_counterexample :
    envC2.startSubscriptionOk "t" = false ∧
    agC2.tTree.subs = [] ∧
    ((handle_SUBSCRIBE envC2 agC2 0 "t" 1 5 "a").outs.any Out.isSubackOut) = true ∧
    ((handle_SUBSCRIBE envC2 agC2 0 "t" 1 5 "a").outs.any Out.isBrokerSubscribe) = false ∧
    ((handle_SUBSCRIBE envC2 agC2 0 "t" 1 5 "a").outs.contains
      (Out.log "ERROR StartSubscription")) = true := by
  refine ⟨rfl, rfl, ?_, ?_, ?_⟩ <;> decide

/-- C2 (amended): on a SUBSCRIBE that is the first subscription to its
filter, a failing upstream broker subscribe call is logged but the SUBACK
is nevertheless sent, carrying the granted QoS, the topic id and the
original message id, exactly as on success; the reply is not withheld. -/
theorem C2_upstream_failure_still_subacks (env : Env) (ag : AggGate)
    (tn : String) (qos mid : Nat) (r : String) (cl : Client)
    (hcl : ag.clients.GetClient r = some cl)
    (hfirst : ag.tTree.subs.find? (fun p => p.1 == tn) = none)
    (hfilter : env.topicFilterOk tn = true)
    (hfail : env.startSubscriptionOk tn = false) :
    ∃ ag',
      handle_SUBSCRIBE env ag 0 tn qos mid r =
        .ok ag' [Out.log "handle_SUBSCRIBE", Out.log "ERROR StartSubscription",
                 Out.subackOut ⟨0, qos, (subscribeTopicId ag 0 tn).1, mid⟩ r] := by
  refine ⟨⟨(subscribeTopicId ag 0 tn).2, (ag.tTree.AddSubscription r tn).2,
           ag.clients.SetClient r (cl.Register (subscribeTopicId ag 0 tn).1)⟩, ?_⟩
  simp only [handle_SUBSCRIBE, hcl]
  simp only [TopicTree.AddSubscription, hfirst]
  simp only [hfilter, hfail, if_true, Bool.false_eq_true, if_false]
  rfl

/-- C2 witness: the amended behaviour at the concrete failing state. -/
theorem C2_upstream_failure_still_subacks_witness :
    ∃ ag',
      handle_SUBSCRIBE envC2 agC2 0 "t" 1 5 "a" =
        .ok ag' [Out.log "handle_SUBSCRIBE", Out.log "ERROR StartSubscription",
                 Out.subackOut ⟨0, 1, (subscribeTopicId agC2 0 "t").1, 5⟩ "a"] :=
  C2_upstream_failure_still_subacks envC2 agC2 "t" 1 5 "a" clC2 rfl rfl rfl rfl

/-- C4: every session the Subscription Tree reports for a broker delivery
receives one independent `publish` attempt; a session with the message's
topic id registered is sent the PUBLISH directly, and one without it has
the PUBLISH parked in its pending slot and is sent a REGISTER carrying the
topic name and id, with no direct PUBLISH. -/
theorem C4_fanout_register_or_publish (ag : AggGate) (msg : BrokerMessage)
    (ep : String) (cl : Client)
    (hep : ep ∈ ag.tTree.SubscribersOf msg.topic)
    (hcl : ag.clients.GetClient ep = some cl) :
    (ep, publish ag msg cl) ∈ distribute ag msg ∧
    (cl.Registered (ag.tIndex.getId msg.topic) = true →
       publish ag msg cl =
         (cl, [Out.log "publish direct",
               Out.publishOut
                 ⟨msg.dup, msg.retained, msg.qos, 0, ag.tIndex.getId msg.topic,
                  0, msg.payload⟩ cl.addr])) ∧
    (cl.Registered (ag.tIndex.getId msg.topic) = false →
       publish ag msg cl =
         (cl.AddPendingMessage
            ⟨msg.dup, msg.retained, msg.qos, 0, ag.tIndex.getId msg.topic,
             0, msg.payload⟩,
          [Out.log "publish must REGISTER first",
           Out.registerOut ⟨ag.tIndex.getId msg.topic, 0, msg.topic⟩ cl.addr])) := by
  refine ⟨?_, ?_, ?_⟩
  · unfold distribute
    refine List.mem_filterMap.mpr ⟨ep, hep, ?_⟩
    rw [hcl]
    rfl
  · intro h
    simp [publish, h]
  · intro h
    simp [publish, h]

/-- A registered subscriber of topic `t` at endpoint `b`. -/
def clC4 : Client := ⟨"dev", "b", [1], []⟩

/-- A gateway where `t` has id 1 and `clC4` subscribes to it. -/
def agC4 : AggGate := ⟨⟨[(1, "t")], 1⟩, ⟨[("t", ["b"])]⟩, ⟨[("b", clC4)]⟩⟩

/-- A broker delivery on topic `t`. -/
def msgC4 : BrokerMessage := ⟨false, false, 0, "t", [9]⟩

/-- C4 witness: the registered subscriber gets the direct PUBLISH and the
fan-out contains its delivery attempt. -/
theorem C4_fanout_register_or_publish_witness :
    ("b", publish agC4 msgC4 clC4) ∈ distribute agC4 msgC4 ∧
    publish agC4 msgC4 clC4 =
      (clC4, [Out.log "publish direct",
              Out.publishOut ⟨false, false, 0, 0, 1, 0, [9]⟩ "b"]) :=
  ⟨(C4_fanout_register_or_publish agC4 msgC4 "b" clC4 (by decide) (by decide)).1,
   (C4_fanout_register_or_publish agC4 msgC4 "b" clC4 (by decide) (by decide)).2.1
     (by decide)⟩

/-- C5: on REGACK for topic id `t`, the pending message stored for `t` on
the sender's session, when present, is sent unchanged as the deferred
PUBLISH (and removed from the slot); when absent, the handler only logs
and the whole gateway state is unchanged. -/
theorem C5_regack_pending_delivery (ag : AggGate) (tid mid : Nat)
    (r : String) (cl : Client)
    (hwf : ag.clients.WF)
    (hcl : ag.clients.GetClient r = some cl) :
    (cl.pending.find? (fun p => p.1 == tid) = none →
       handle_REGACK ag tid mid r =
         .ok ag [Out.log "handle_REGACK", Out.log "ERROR no pending message"]) ∧
    (∀ q, cl.pending.find? (fun p => p.1 == tid) = some q →
       handle_REGACK ag tid mid r =
         .ok { ag with clients := ag.clients.SetClient r (cl.FetchPendingMessage tid).2 }
            [Out.log "handle_REGACK", Out.publishOut q.2 r]) := by
  constructor
  · intro hnone
    have hfix : (cl.FetchPendingMessage tid).2 = cl := by
      simp only [Client.FetchPendingMessage]
      rw [filter_bne_eq_self hnone]
    have hfetch1 : (cl.FetchPendingMessage tid).1 = none := by
      simp [Client.FetchPendingMessage, hnone]
    have hset : ag.clients.SetClient r (cl.FetchPendingMessage tid).2 = ag.clients := by
      rw [hfix]
      exact Clients.SetClient_eq_self hwf hcl
    simp only [handle_REGACK, hcl, hfetch1, hset]
  · intro q hsome
    have hfetch1 : (cl.FetchPendingMessage tid).1 = some q.2 := by
      simp [Client.FetchPendingMessage, hsome]
    simp only [handle_REGACK, hcl, hfetch1]

/-- The deferred PUBLISH parked for topic id 2. -/
def pmC5 : PublishMessage := ⟨false, false, 1, 0, 2, 0, [5]⟩

/-- A session holding `pmC5` in its pending slot for id 2. -/
def clC5 : Client := ⟨"dev", "a", [], [(2, pmC5)]⟩

/-- A gateway with session `clC5` and topic `t` at id 2. -/
def agC5 : AggGate := ⟨⟨[(2, "t")], 2⟩, ⟨[]⟩, ⟨[("a", clC5)]⟩⟩

/-- C5 witness: a REGACK for the queued id delivers the parked message and
a REGACK for an id with nothing queued changes nothing. -/
theorem C5_regack_pending_delivery_witness :
    handle_REGACK agC5 2 9 "a" =
      .ok { agC5 with clients := agC5.clients.SetClient "a" (clC5.FetchPendingMessage 2).2 }
         [Out.log "handle_REGACK", Out.publishOut pmC5 "a"] ∧
    handle_REGACK agC5 7 9 "a" =
      .ok agC5 [Out.log "handle_REGACK", Out.log "ERROR no pending message"] :=
  ⟨(C5_regack_pending_delivery agC5 2 9 "a" clC5 (by decide) (by decide)).2
      (2, pmC5) (by decide),
   (C5_regack_pending_delivery agC5 7 9 "a" clC5 (by decide) (by decide)).1
      (by decide)⟩

/-- C6: on REGISTER from a connected client, the handler resolves the
existing id or allocates a fresh one, and the id is never 0 (given the
registry's id-0 reservation invariant); the id is marked registered on the
sending session, and the reply is a REGACK carrying exactly that id, the
original message id, and return code 0. -/
theorem C6_register_allocates_nonzero (ag : AggGate) (tn : String) (mid : Nat)
    (r : String) (cl : Client)
    (hwf : ag.tIndex.WF)
    (hcl : ag.clients.GetClient r = some cl) :
    ∃ tid tIndex',
      handle_REGISTER ag tn mid r =
        .ok { ag with tIndex := tIndex',
                      clients := ag.clients.SetClient r (cl.Register tid) }
           [Out.log "handle_REGISTER", Out.regackOut ⟨tid, mid, 0⟩ r] ∧
      tid ≠ 0 ∧
      (cl.Register tid).Registered tid = true ∧
      (ag.clients.SetClient r (cl.Register tid)).GetClient r =
        some (cl.Register tid) := by
  by_cases hc : (ag.tIndex.containsTopic tn = true)
  · refine ⟨ag.tIndex.getId tn, ag.tIndex, ?_,
            topicNames.getId_ne_zero hwf hc,
            Client.Registered_Register_self cl _,
            Clients.GetClient_SetClient_self _ r cl _ hcl⟩
    simp [handle_REGISTER, hcl, hc]
  · have hc' : ag.tIndex.containsTopic tn = false := by simpa using hc
    refine ⟨ag.tIndex.next + 1, (ag.tIndex.putTopic tn).2, ?_,
            Nat.succ_ne_zero _,
            Client.Registered_Register_self cl _,
            Clients.GetClient_SetClient_self _ r cl _ hcl⟩
    simp [handle_REGISTER, hcl, hc', topicNames.putTopic]

/-- A connected session at endpoint `a` on an otherwise empty gateway. -/
def clC6 : Client := ⟨"dev1", "a", [], []⟩

/-- The gateway holding only session `clC6`. -/
def agC6 : AggGate := ⟨⟨[], 0⟩, ⟨[]⟩, ⟨[("a", clC6)]⟩⟩

/-- C6 witness: a concrete REGISTER on the fresh gateway. -/
theorem C6_register_allocates_nonzero_witness :
    ∃ tid tIndex',
      handle_REGISTER agC6 "sensors/temp" 1 "a" =
        .ok { agC6 with tIndex := tIndex',
                        clients := agC6.clients.SetClient "a" (clC6.Register tid) }
           [Out.log "handle_REGISTER", Out.regackOut ⟨tid, 1, 0⟩ "a"] ∧
      tid ≠ 0 ∧
      (clC6.Register tid).Registered tid = true ∧
      (agC6.clients.SetClient "a" (clC6.Register tid)).GetClient "a" =
        some (clC6.Register tid) :=
  C6_register_allocates_nonzero agC6 "sensors/temp" 1 "a" clC6 (by decide) (by decide)

/-- C9: the REGACK handler never adds the acknowledged id to the session's
registered set — the set is exactly what it was before — so any later
broker delivery on a topic whose id the session has not registered again
takes the pending-message/REGISTER path and sends no direct PUBLISH. -/
theorem C9_regack_never_registers (ag : AggGate) (tid mid : Nat)
    (r : String) (cl : Client)
    (hcl : ag.clients.GetClient r = some cl) :
    ∃ ag' outs,
      handle_REGACK ag tid mid r = .ok ag' outs ∧
      ag'.tIndex = ag.tIndex ∧
      ∃ cl', ag'.clients.GetClient r = some cl' ∧
        cl'.registered = cl.registered ∧
        ∀ msg : BrokerMessage,
          cl.Registered (ag.tIndex.getId msg.topic) = false →
            (publish ag' msg cl').2.any Out.isPublishOut = false ∧
            (publish ag' msg cl').2.any Out.isRegisterOut = true := by
  have hget : (ag.clients.SetClient r (cl.FetchPendingMessage tid).2).GetClient r =
      some (cl.FetchPendingMessage tid).2 :=
    Clients.GetClient_SetClient_self _ r cl _ hcl
  have hstate : ∀ msg : BrokerMessage,
      cl.Registered (ag.tIndex.getId msg.topic) = false →
        (publish { ag with clients := ag.clients.SetClient r (cl.FetchPendingMessage tid).2 }
            msg (cl.FetchPendingMessage tid).2).2.any Out.isPublishOut = false ∧
        (publish { ag with clients := ag.clients.SetClient r (cl.FetchPendingMessage tid).2 }
            msg (cl.FetchPendingMessage tid).2).2.any Out.isRegisterOut = true := by
    intro msg h
    have hreg : ((cl.FetchPendingMessage tid).2).Registered (ag.tIndex.getId msg.topic)
        = false := h
    constructor <;> simp [publish, hreg, Out.isPublishOut, Out.isRegisterOut]
  cases hfe : (cl.FetchPendingMessage tid).1 with
  | none =>
    refine ⟨{ ag with clients := ag.clients.SetClient r (cl.FetchPendingMessage tid).2 },
            [Out.log "handle_REGACK", Out.log "ERROR no pending message"], ?_, rfl,
            (cl.FetchPendingMessage tid).2, hget, rfl, hstate⟩
    simp only [handle_REGACK, hcl, hfe]
  | some pm =>
    refine ⟨{ ag with clients := ag.clients.SetClient r (cl.FetchPendingMessage tid).2 },
            [Out.log "handle_REGACK", Out.publishOut pm r], ?_, rfl,
            (cl.FetchPendingMessage tid).2, hget, rfl, hstate⟩
    simp only [handle_REGACK, hcl, hfe]

/-- C9 witness: the full gateway-initiated handshake tail at a concrete
state — the REGACK delivers the parked message yet leaves the registered
set empty, and a repeat broker delivery on `t` again takes the REGISTER
path. -/
theorem C9_regack_never_registers_witness :
    ∃ ag' outs,
      handle_REGACK agC5 2 9 "a" = .ok ag' outs ∧
      ag'.tIndex = agC5.tIndex ∧
      ∃ cl', ag'.clients.GetClient "a" = some cl' ∧
        cl'.registered = clC5.registered ∧
        ∀ msg : BrokerMessage,
          clC5.Registered (agC5.tIndex.getId msg.topic) = false →
            (publish ag' msg cl').2.any Out.isPublishOut = false ∧
            (publish ag' msg cl').2.any Out.isRegisterOut = true :=
  C9_regack_never_registers agC5 2 9 "a" clC5 (by decide)

/-- Under a wildcard filter or a nonzero topic-id type, the SUBSCRIBE
topic-id resolution leaves the id at 0 and the registry untouched. -/
theorem subscribeTopicId_zero (ag : AggGate) (tit : Nat) (tn : String)
    (h : (tit = 0 ∧ ContainsWildcard tn = true) ∨ tit ≠ 0) :
    subscribeTopicId ag tit tn = (0, ag.tIndex) := by
  rcases h with ⟨h0, hw⟩ | h0
  · subst h0
    simp [subscribeTopicId, hw]
  · simp [subscribeTopicId, h0]

/-- C10: a SUBSCRIBE whose topic contains a wildcard segment (or whose
topic-id type is nonzero) leaves the topic id at 0, allocates nothing in
the Topic Registry, puts the reserved id 0 into the sending session's
registered set via `Register 0`, and sends a SUBACK carrying topic id
0. -/
theorem C10_wildcard_subscribe_registers_zero (env : Env) (ag : AggGate)
    (tit : Nat) (tn : String) (qos mid : Nat) (r : String) (cl : Client)
    (hcl : ag.clients.GetClient r = some cl)
    (h : (tit = 0 ∧ ContainsWildcard tn = true) ∨ tit ≠ 0) :
    ∃ subOuts,
      handle_SUBSCRIBE env ag tit tn qos mid r =
        .ok ⟨ag.tIndex, (ag.tTree.AddSubscription r tn).2,
             ag.clients.SetClient r (cl.Register 0)⟩
           ([Out.log "handle_SUBSCRIBE"] ++ subOuts ++
            [Out.subackOut ⟨0, qos, 0, mid⟩ r]) ∧
      (cl.Register 0).Registered 0 = true ∧
      (ag.clients.SetClient r (cl.Register 0)).GetClient r =
        some (cl.Register 0) := by
  have htp := subscribeTopicId_zero ag tit tn h
  refine ⟨(if (ag.tTree.AddSubscription r tn).1 then
             (if env.topicFilterOk tn then
                (if env.startSubscriptionOk tn then
                   [Out.brokerSubscribe tn 2, Out.awaitReceipt]
                 else [Out.log "ERROR StartSubscription"])
              else [Out.log "ERROR NewTopicFilter"])
           else []), ?_,
          Client.Registered_Register_self cl 0,
          Clients.GetClient_SetClient_self _ r cl _ hcl⟩
  simp only [handle_SUBSCRIBE, hcl, htp]

/-- C10 witness: a concrete wildcard SUBSCRIBE (`a/#`) on the fresh
gateway with one session. -/
theorem C10_wildcard_subscribe_registers_zero_witness :
    ∃ subOuts,
      handle_SUBSCRIBE envT agC6 0 "a/#" 1 4 "a" =
        .ok ⟨agC6.tIndex, (agC6.tTree.AddSubscription "a" "a/#").2,
             agC6.clients.SetClient "a" (clC6.Register 0)⟩
           ([Out.log "handle_SUBSCRIBE"] ++ subOuts ++
            [Out.subackOut ⟨0, 1, 0, 4⟩ "a"]) ∧
      (clC6.Register 0).Registered 0 = true ∧
      (agC6.clients.SetClient "a" (clC6.Register 0)).GetClient "a" =
        some (clC6.Register 0) :=
  C10_wildcard_subscribe_registers_zero envT agC6 0 "a/#" 1 4 "a" clC6
    (by decide) (Or.inl ⟨rfl, by decide⟩)

end GnattAgg
